import Mathlib

/-!
Shallow embedding of the request-validation and query-encoding core of the
american-express-sdk-go client library (src/validation.go, src/utils.go,
src/payments.go, src/transactions.go, tokens source file).

Modelling conventions:
* Go `float64` amounts are embedded as exact rationals (`ℚ`); all amounts
  appearing in the spec's test vectors are exactly representable decisions
  at this granularity.
* Go `string` is Lean `String`; Go `len(s)` is the UTF-8 byte length, so it
  is modelled by `String.utf8ByteSize`.
* Go `nil` pointers are `Option.none`.
* Go `error` results are `Option GoError`: `none` means the Go function
  returned `nil` (success); `some e` identifies which `error` value was
  returned.  Wrapping with `fmt.Errorf("...: %w", err)` is modelled by a
  constructor carrying the wrapped error.
-/

/-- The distinct error values produced by the validation layer.  Each
constructor corresponds to one `errors.New` / `fmt.Errorf` site in the Go
source (or, for the transaction validator, in the spec's error taxonomy);
`invalidCardDetails` models the `fmt.Errorf("invalid card details: %w", err)`
wrap, preserving the wrapped error. -/
inductive GoError where
  /-- "card details cannot be nil" -/
  | cardNil : GoError
  /-- `ErrInvalidCardNumber` -/
  | errInvalidCardNumber : GoError
  /-- `ErrInvalidExpiryDate` wrapped with "month must be 1-12" -/
  | errInvalidExpiryMonth : GoError
  /-- `ErrInvalidExpiryDate` wrapped with "year must be 2020-2099" -/
  | errInvalidExpiryYear : GoError
  /-- `ErrInvalidCVV` -/
  | errInvalidCVV : GoError
  /-- "holder name cannot be empty" -/
  | holderNameEmpty : GoError
  /-- "payment request cannot be nil" -/
  | paymentReqNil : GoError
  /-- `ErrInvalidAmount` -/
  | errInvalidAmount : GoError
  /-- bare `ErrInvalidCurrency` (empty currency) -/
  | errInvalidCurrencyEmpty : GoError
  /-- `ErrInvalidCurrency` wrapped with "currency must be 3 characters" -/
  | errInvalidCurrencyLen : GoError
  /-- "merchant ID cannot be empty" -/
  | merchantIDEmpty : GoError
  /-- "either card token or card details must be provided" -/
  | missingPaymentMethod : GoError
  /-- "invalid card details: %w" wrapping the card-details error -/
  | invalidCardDetails (inner : GoError) : GoError
  /-- "transaction request cannot be nil" -/
  | transactionReqNil : GoError
  /-- "capture mode must be 'auto' or 'manual'" -/
  | invalidCaptureMode : GoError
  /-- "token request cannot be nil" -/
  | tokenReqNil : GoError
  /-- "card details are required for token creation" -/
  | missingCardDetails : GoError
deriving DecidableEq, Repr

/-- `CardDetails` (src/payments.go). -/
structure CardDetails where
  Number : String := ""
  ExpiryMonth : Int := 0
  ExpiryYear : Int := 0
  CVV : String := ""
  HolderName : String := ""
deriving DecidableEq, Repr

/-- `Address` (src/payments.go).  Never validated by this core. -/
structure Address where
  Line1 : String := ""
  Line2 : String := ""
  City : String := ""
  State : String := ""
  PostalCode : String := ""
  Country : String := ""
deriving DecidableEq, Repr

/-- `PaymentRequest` (src/payments.go).  Defaults are the Go zero values. -/
structure PaymentRequest where
  Amount : ℚ := 0
  Currency : String := ""
  MerchantID : String := ""
  Description : String := ""
  Reference : String := ""
  CardToken : String := ""
  CardDetails : Option CardDetails := none
  BillingAddr : Option Address := none
  ShippingAddr : Option Address := none
  Metadata : List (String × String) := []
deriving DecidableEq, Repr

/-- `TransactionRequest` (src/transactions.go).  Defaults are the Go zero
values. -/
structure TransactionRequest where
  Amount : ℚ := 0
  Currency : String := ""
  MerchantID : String := ""
  Description : String := ""
  Reference : String := ""
  CardToken : String := ""
  CardDetails : Option CardDetails := none
  BillingAddr : Option Address := none
  ShippingAddr : Option Address := none
  Metadata : List (String × String) := []
  CaptureMode : String := ""
  CVVCheck : Bool := false
  AVSCheck : Bool := false
deriving DecidableEq, Repr

/-- `strings.ReplaceAll(s, " ", "")`: remove every space character. -/
def removeSpaces (s : String) : String :=
  String.mk (s.data.filter (fun c => c ≠ ' '))

/-- `cardNumberRegex.MatchString`: the anchored Go regexp `\d{13,19}`
matches exactly the strings made of 13 to 19 ASCII decimal digits. -/
def cardNumberMatch (s : String) : Bool :=
  s.data.all (fun c => c.isDigit) && decide (13 ≤ s.length) && decide (s.length ≤ 19)

/-- `strings.TrimSpace(s) == ""`: true iff every character of `s` is
whitespace (so trimming leaves the empty string). -/
def goIsBlank (s : String) : Bool :=
  s.data.all (fun c => c.isWhitespace)

/-- `ValidateCardDetails` (src/validation.go lines 27-57). -/
def ValidateCardDetails : Option CardDetails → Option GoError
  | none => some GoError.cardNil
  | some card =>
    if cardNumberMatch (removeSpaces card.Number) = false then
      some GoError.errInvalidCardNumber
    else if card.ExpiryMonth < 1 ∨ card.ExpiryMonth > 12 then
      some GoError.errInvalidExpiryMonth
    else if card.ExpiryYear < 2020 ∨ card.ExpiryYear > 2099 then
      some GoError.errInvalidExpiryYear
    else if card.CVV.utf8ByteSize < 3 ∨ card.CVV.utf8ByteSize > 4 then
      some GoError.errInvalidCVV
    else if goIsBlank card.HolderName then
      some GoError.holderNameEmpty
    else
      none

/-- `ValidatePaymentRequest` (src/validation.go lines 60-96). -/
def ValidatePaymentRequest : Option PaymentRequest → Option GoError
  | none => some GoError.paymentReqNil
  | some req =>
    if req.Amount ≤ 0 then
      some GoError.errInvalidAmount
    else if req.Currency = "" then
      some GoError.errInvalidCurrencyEmpty
    else if req.Currency.utf8ByteSize ≠ 3 then
      some GoError.errInvalidCurrencyLen
    else if goIsBlank req.MerchantID then
      some GoError.merchantIDEmpty
    else if req.CardToken = "" ∧ req.CardDetails = none then
      some GoError.missingPaymentMethod
    else
      match req.CardDetails with
      | some cd =>
        match ValidateCardDetails (some cd) with
        | some e => some (GoError.invalidCardDetails e)
        | none => none
      | none => none

/-- The shared request fields of a `TransactionRequest`, as a
`PaymentRequest` (the two records coincide on every field the common
validation checks read). -/
def TransactionRequest.toPaymentRequest (r : TransactionRequest) : PaymentRequest :=
  { Amount := r.Amount, Currency := r.Currency, MerchantID := r.MerchantID,
    Description := r.Description, Reference := r.Reference,
    CardToken := r.CardToken, CardDetails := r.CardDetails,
    BillingAddr := r.BillingAddr, ShippingAddr := r.ShippingAddr,
    Metadata := r.Metadata }

/-- Modelled from the spec: the body of `ValidateTransactionRequest` is
missing from the source tree — only its caller `AuthorizeTransaction`
(src/transactions.go line 65) and its unit test
(src/transactions_test.go) are present.  Spec §4.1 gives its algorithm:
reject a nil request, run the same amount / currency / merchant /
payment-method / card-details checks as `ValidatePaymentRequest`, and
finally reject a non-empty capture mode that is neither "auto" nor
"manual" (`InvalidCaptureMode`); an empty capture mode passes. -/
def ValidateTransactionRequest : Option TransactionRequest → Option GoError
  | none => some GoError.transactionReqNil
  | some req =>
    if req.Amount ≤ 0 then
      some GoError.errInvalidAmount
    else if req.Currency = "" then
      some GoError.errInvalidCurrencyEmpty
    else if req.Currency.utf8ByteSize ≠ 3 then
      some GoError.errInvalidCurrencyLen
    else if goIsBlank req.MerchantID then
      some GoError.merchantIDEmpty
    else if req.CardToken = "" ∧ req.CardDetails = none then
      some GoError.missingPaymentMethod
    else
      match (match req.CardDetails with
             | some cd => (ValidateCardDetails (some cd)).map GoError.invalidCardDetails
             | none => none : Option GoError) with
      | some e => some e
      | none =>
        if req.CaptureMode ≠ "" ∧ req.CaptureMode ≠ "auto" ∧ req.CaptureMode ≠ "manual" then
          some GoError.invalidCaptureMode
        else
          none

/-- `SupportedCurrencies` (src/validation.go lines 112-117). -/
def SupportedCurrencies : List String :=
  ["USD", "EUR", "GBP", "CAD", "AUD", "JPY", "CHF", "SGD", "HKD", "SEK",
   "NOK", "DKK", "PLN", "CZK", "HUF", "ILS", "MXN", "BRL", "ARS", "CLP"]

/-- One step of Go's simple Unicode case folding, restricted to what can
compare equal to an ASCII string: ASCII letters fold to lower case, and
the only non-ASCII code points whose simple-fold orbit reaches an ASCII
letter are U+212A (Kelvin sign, folds with k/K) and U+017F (long s,
folds with s/S). -/
def goSimpleFoldChar (c : Char) : Char :=
  if c = 'K' then 'k'
  else if c = 'ſ' then 's'
  else c.toLower

/-- `strings.EqualFold a b`: per-rune simple case-fold equality.  Exact for
comparisons in which one side is an ASCII string, which covers every use
against the `SupportedCurrencies` entries. -/
def goEqualFold (a b : String) : Bool :=
  a.data.map goSimpleFoldChar = b.data.map goSimpleFoldChar

/-- `IsSupportedCurrency` (src/validation.go lines 120-128): linear scan
with `strings.EqualFold`. -/
def IsSupportedCurrency (currency : String) : Bool :=
  SupportedCurrencies.any (fun c => goEqualFold c currency)

/-- Go's `int(x)` conversion: truncation toward zero.  On an exact rational
`n/d` (lowest terms, `d > 0`) that is `n` tdiv `d`. -/
def goTruncToInt (q : ℚ) : Int :=
  q.num.tdiv q.den

/-- `FormatAmount` (src/validation.go lines 131-133):
`float64(int(amount*100)) / 100`, with the `float64` arithmetic embedded
as exact rational arithmetic. -/
def FormatAmount (amount : ℚ) : ℚ :=
  (goTruncToInt (amount * 100) : ℚ) / 100

/-- The value of one struct field as seen by `encodeQuery`'s reflective
switch (src/utils.go lines 44-59): the field kinds that occur are string,
integer, boolean, float, and pointer (`ptr true` is a nil pointer). -/
inductive FieldValue where
  | str (s : String) : FieldValue
  | int (i : Int) : FieldValue
  | bool (b : Bool) : FieldValue
  | float (q : ℚ) : FieldValue
  | ptr (isNil : Bool) : FieldValue
deriving DecidableEq, Repr

/-- Decimal rendering of `strconv.FormatFloat(f, 'f', -1, 64)`.  The
properties below depend only on whether a float field is zero, never on
the digit string itself, which is therefore rendered via `toString`. -/
def floatRepr (q : ℚ) : String :=
  toString q

/-- The `value` string computed for one field by `encodeQuery`'s switch
(src/utils.go lines 37-59): `none` models the cases in which `value`
remains empty and the field is skipped — a zero string/int/float, a nil
pointer (the explicit `IsNil` `continue`), and a non-nil pointer (no
switch case matches kind `Ptr`, so `value` stays empty). -/
def fieldValueString : FieldValue → Option String
  | FieldValue.str s => if s = "" then none else some s
  | FieldValue.int i => if i = 0 then none else some (toString i)
  | FieldValue.bool b => some (if b then "true" else "false")
  | FieldValue.float q => if q = 0 then none else some (floatRepr q)
  | FieldValue.ptr _ => none

/-- One struct field as walked by `encodeQuery`: the full value of its
`url` struct tag (what `reflect.StructTag.Get "url"` returns — the whole
tag string, options such as ",omitempty" included) and its value. -/
structure GoField where
  tag : String
  value : FieldValue
deriving DecidableEq, Repr

/-- The field loop of `encodeQuery` (src/utils.go lines 27-64): walk the
fields in declaration order; skip a field whose tag is `""` or `"-"`;
otherwise compute its value string and `Add` the (tag, value) pair when
the value string is non-empty. -/
def encodeFields : List GoField → List (String × String)
  | [] => []
  | f :: fs =>
    if f.tag = "" ∨ f.tag = "-" then
      encodeFields fs
    else
      match fieldValueString f.value with
      | some v => if v = "" then encodeFields fs else (f.tag, v) :: encodeFields fs
      | none => encodeFields fs

/-- `encodeQuery` (src/utils.go lines 10-67).  The Go function returns
`(url.Values, error)` and every return site returns a nil error, so the
result is always `Except.ok`; a nil input yields the empty mapping.  A
struct input is represented by its field-descriptor list in declaration
order. -/
def encodeQuery (v : Option (List GoField)) : Except String (List (String × String)) :=
  match v with
  | none => Except.ok []
  | some fields => Except.ok (encodeFields fields)

/-- `ListTokensRequest` (tokens source file): the only struct in the
repository with `url` tags, encoded by `ListTokens` via `encodeQuery`. -/
structure ListTokensRequest where
  CustomerID : String := ""
  Limit : Int := 0
  Offset : Int := 0
deriving DecidableEq, Repr

/-- The field-descriptor list of `ListTokensRequest` in declaration order.
Each tag is the full `url` tag value exactly as written in the source
(`url:"customer_id,omitempty"` etc.); `reflect.StructTag.Get "url"`
returns it whole, the ",omitempty" option included. -/
def ListTokensRequest.toGoFields (r : ListTokensRequest) : List GoField :=
  [⟨"customer_id,omitempty", FieldValue.str r.CustomerID⟩,
   ⟨"limit,omitempty", FieldValue.int r.Limit⟩,
   ⟨"offset,omitempty", FieldValue.int r.Offset⟩]

/-- `ListTransactionsRequest` (src/transactions.go lines 225-239). -/
structure ListTransactionsRequest where
  MerchantID : String := ""
  Status : String := ""
  «Type» : String := ""
  StartDate : String := ""
  EndDate : String := ""
  Reference : String := ""
  MinAmount : String := ""
  MaxAmount : String := ""
  Currency : String := ""
  Limit : Int := 0
  Offset : Int := 0
  SortBy : String := ""
  SortOrder : String := ""
deriving DecidableEq, Repr

/-- The query built by `ListTransactions` (src/transactions.go lines
251-293): a hand-written chain of emptiness/positivity guards, one per
field, `Add`ing pairs in source order; a nil request contributes
nothing. -/
def listTransactionsQuery : Option ListTransactionsRequest → List (String × String)
  | none => []
  | some req =>
    (if req.MerchantID ≠ "" then [("merchant_id", req.MerchantID)] else []) ++
    (if req.Status ≠ "" then [("status", req.Status)] else []) ++
    (if req.«Type» ≠ "" then [("type", req.«Type»)] else []) ++
    (if req.StartDate ≠ "" then [("start_date", req.StartDate)] else []) ++
    (if req.EndDate ≠ "" then [("end_date", req.EndDate)] else []) ++
    (if req.Reference ≠ "" then [("reference", req.Reference)] else []) ++
    (if req.MinAmount ≠ "" then [("min_amount", req.MinAmount)] else []) ++
    (if req.MaxAmount ≠ "" then [("max_amount", req.MaxAmount)] else []) ++
    (if req.Currency ≠ "" then [("currency", req.Currency)] else []) ++
    (if req.Limit > 0 then [("limit", toString req.Limit)] else []) ++
    (if req.Offset > 0 then [("offset", toString req.Offset)] else []) ++
    (if req.SortBy ≠ "" then [("sort_by", req.SortBy)] else []) ++
    (if req.SortOrder ≠ "" then [("sort_order", req.SortOrder)] else [])

/-- First failing check of a sequence of checks, in order: the verdict of
spec §4.1's "the first failing check in the sequence is the one
reported". -/
def firstFailure : List (PaymentRequest → Option GoError) → PaymentRequest → Option GoError
  | [], _ => none
  | c :: cs, r =>
    match c r with
    | some e => some e
    | none => firstFailure cs r

/-- Spec §4.1's check sequence for a non-nil `PaymentRequest`, one entry
per numbered step: amount, currency (shape only), merchant id,
payment-method presence, card details. -/
def paymentCheckSequence : List (PaymentRequest → Option GoError) :=
  [fun r => if r.Amount ≤ 0 then some GoError.errInvalidAmount else none,
   fun r =>
     if r.Currency = "" then some GoError.errInvalidCurrencyEmpty
     else if r.Currency.utf8ByteSize ≠ 3 then some GoError.errInvalidCurrencyLen
     else none,
   fun r => if goIsBlank r.MerchantID then some GoError.merchantIDEmpty else none,
   fun r =>
     if r.CardToken = "" ∧ r.CardDetails = none then some GoError.missingPaymentMethod
     else none,
   fun r =>
     match r.CardDetails with
     | some cd => (ValidateCardDetails (some cd)).map GoError.invalidCardDetails
     | none => none]

/-- `errors.Is(e, ErrInvalidCurrency)`: both currency error sites wrap
`ErrInvalidCurrency`, and `errors.Is` unwraps through `%w` chains such as
the "invalid card details" wrap. -/
def isCurrencyError : GoError → Bool
  | GoError.errInvalidCurrencyEmpty => true
  | GoError.errInvalidCurrencyLen => true
  | GoError.invalidCardDetails e => isCurrencyError e
  | _ => false

/-- Whether a validation outcome is a currency-classified rejection. -/
def reportsCurrencyError (o : Option GoError) : Bool :=
  match o with
  | some e => isCurrencyError e
  | none => false

/-- A field value Go considers the type's zero value among those the
encoder skips: empty string, zero integer, zero float, nil pointer. -/
def isZeroFieldValue : FieldValue → Bool
  | FieldValue.str s => s = ""
  | FieldValue.int i => i = 0
  | FieldValue.bool _ => false
  | FieldValue.float q => q = 0
  | FieldValue.ptr isNil => isNil

/-! ## Helper lemmas -/

theorem validateCardDetails_not_currency (cd : CardDetails) (e : GoError)
    (h : ValidateCardDetails (some cd) = some e) : isCurrencyError e = false := by
  simp only [ValidateCardDetails] at h
  split_ifs at h <;> injection h with h' <;> subst h' <;> rfl

theorem encodeFields_append (fs gs : List GoField) :
    encodeFields (fs ++ gs) = encodeFields fs ++ encodeFields gs := by
  induction fs with
  | nil => rfl
  | cons f fs ih =>
    simp only [List.cons_append, encodeFields, List.append_eq]
    by_cases htag : f.tag = "" ∨ f.tag = "-"
    · simp only [if_pos htag, ih]
    · simp only [if_neg htag]
      cases h : fieldValueString f.value with
      | none => exact ih
      | some v =>
        by_cases hv : v = ""
        · simp only [if_pos hv, ih]
        · simp only [if_neg hv, ih, List.cons_append]

/-! ## Claims -/

/-- C4: `ValidateCardDetails` accepts a non-nil card exactly when the card
number, after removing spaces, is an all-decimal string of length 13-19;
the expiry month is in [1,12] and the expiry year in [2020,2099] (both
boundaries inclusive, no wall clock); the CVV has length 3 or 4 (digit-ness
not checked, so "abcd" passes); and the holder name is non-empty after
trimming whitespace. -/
theorem claim_C4 :
    (∀ cd : CardDetails,
      ValidateCardDetails (some cd) = none ↔
        ((removeSpaces cd.Number).data.all (fun c => c.isDigit) = true ∧
         13 ≤ (removeSpaces cd.Number).length ∧ (removeSpaces cd.Number).length ≤ 19 ∧
         1 ≤ cd.ExpiryMonth ∧ cd.ExpiryMonth ≤ 12 ∧
         2020 ≤ cd.ExpiryYear ∧ cd.ExpiryYear ≤ 2099 ∧
         (cd.CVV.utf8ByteSize = 3 ∨ cd.CVV.utf8ByteSize = 4) ∧
         goIsBlank cd.HolderName = false)) ∧
    ValidateCardDetails (some { Number := "4111111111111111", ExpiryMonth := 12,
                                ExpiryYear := 2025, CVV := "abcd",
                                HolderName := "John Doe" }) = none := by
  refine ⟨fun cd => ?_, by decide⟩
  constructor
  · intro h
    simp only [ValidateCardDetails] at h
    split_ifs at h with h1 h2 h3 h4 h5
    rw [Bool.not_eq_false] at h1
    simp only [cardNumberMatch, Bool.and_eq_true, decide_eq_true_eq] at h1
    push_neg at h2 h3 h4
    rw [Bool.not_eq_true] at h5
    exact ⟨h1.1.1, h1.1.2, h1.2, by omega, by omega, by omega, by omega, by omega, h5⟩
  · rintro ⟨hdig, hl1, hl2, hm1, hm2, hy1, hy2, hcvv, hname⟩
    have h1 : cardNumberMatch (removeSpaces cd.Number) = true := by
      simp [cardNumberMatch, hdig, hl1, hl2]
    simp only [ValidateCardDetails]
    rw [if_neg (by simp [h1]), if_neg (by omega), if_neg (by omega),
      if_neg (by rcases hcvv with h | h <;> omega), if_neg (by simp [hname])]

/-- C2: for a non-nil request whose amount check passes, validation reports
a currency-classified error (`errors.Is(err, ErrInvalidCurrency)`) exactly
when the currency is empty or its length is not 3; the supported-currency
allow-list is never consulted, so every 3-byte currency string — supported
or not — passes on an otherwise-valid request. -/
theorem claim_C2 :
    (∀ r : PaymentRequest, 0 < r.Amount →
      (reportsCurrencyError (ValidatePaymentRequest (some r)) = true ↔
        (r.Currency = "" ∨ r.Currency.utf8ByteSize ≠ 3))) ∧
    (∀ c : String, c.utf8ByteSize = 3 →
      ValidatePaymentRequest (some { Amount := 100, Currency := c,
                                     MerchantID := "merchant_123",
                                     CardToken := "token_123" }) = none) := by
  constructor
  · intro r hr
    simp only [ValidatePaymentRequest]
    rw [if_neg (not_le.mpr hr)]
    by_cases hc : r.Currency = ""
    · rw [if_pos hc]
      simp [reportsCurrencyError, isCurrencyError, hc]
    · rw [if_neg hc]
      by_cases hl : r.Currency.utf8ByteSize ≠ 3
      · rw [if_pos hl]
        simp [reportsCurrencyError, isCurrencyError, hl]
      · rw [if_neg hl]
        have h3 : r.Currency.utf8ByteSize = 3 := not_not.mp hl
        have hrhs : ¬(r.Currency = "" ∨ r.Currency.utf8ByteSize ≠ 3) := by
          simp [hc, h3]
        rw [iff_false_intro hrhs, iff_false, Bool.not_eq_true]
        split_ifs
        · rfl
        · rfl
        · cases hcd : r.CardDetails with
          | none => rfl
          | some cd =>
            cases hv : ValidateCardDetails (some cd) with
            | none => simp [hv, reportsCurrencyError]
            | some e =>
              simp only [hv, reportsCurrencyError, isCurrencyError]
              exact validateCardDetails_not_currency cd e hv
  · intro c h3
    have hce : c ≠ "" := fun he => by subst he; exact absurd h3 (by decide)
    simp only [ValidatePaymentRequest]
    rw [if_neg (by norm_num : ¬((100 : ℚ) ≤ 0)), if_neg hce, if_neg (not_not_intro h3),
      if_neg (by decide), if_neg (by simp)]

/-- Witness for C2 at concrete inputs: currency "XX" (length 2) on a request
with positive amount is rejected with a currency error, and the unsupported
3-byte currency "XXX" passes on an otherwise-valid request. -/
theorem claim_C2_witness :
    (reportsCurrencyError (ValidatePaymentRequest (some { Amount := 100, Currency := "XX",
                                                          MerchantID := "merchant_123",
                                                          CardToken := "token_123" })) = true ↔
      (("XX" : String) = "" ∨ ("XX" : String).utf8ByteSize ≠ 3)) ∧
    ValidatePaymentRequest (some { Amount := 100, Currency := "XXX",
                                   MerchantID := "merchant_123",
                                   CardToken := "token_123" }) = none :=
  ⟨claim_C2.1 _ (by norm_num), claim_C2.2 "XXX" (by decide)⟩

/-- C3: `ValidatePaymentRequest` reports the first failing check of the
fixed sequence nil-request, amount, currency, merchant id, payment-method
presence, card-details checks: on a non-nil request it equals the
first-failure scan of the spec's check sequence, a nil request is rejected
first, and whenever the amount check fails the amount error is reported no
matter which later checks also fail. -/
theorem claim_C3 :
    (∀ r : PaymentRequest,
      ValidatePaymentRequest (some r) = firstFailure paymentCheckSequence r) ∧
    ValidatePaymentRequest none = some GoError.paymentReqNil ∧
    (∀ r : PaymentRequest, r.Amount ≤ 0 →
      ValidatePaymentRequest (some r) = some GoError.errInvalidAmount) := by
  refine ⟨fun r => ?_, rfl, fun r h => ?_⟩
  · simp only [ValidatePaymentRequest, firstFailure, paymentCheckSequence]
    split_ifs <;> try rfl
    cases hcd : r.CardDetails with
    | none => rfl
    | some cd => cases hv : ValidateCardDetails (some cd) <;> simp [hv]
  · simp only [ValidatePaymentRequest]
    rw [if_pos h]

/-- Witness for C3: a request in which both the amount check and the
currency check fail is rejected with the amount error, the first failing
check in the sequence. -/
theorem claim_C3_witness :
    ValidatePaymentRequest (some { Amount := 0, Currency := "INVALID!",
                                   MerchantID := "merchant_123",
                                   CardToken := "token_123" }) =
      some GoError.errInvalidAmount :=
  claim_C3.2.2 _ (by decide)

/-- C5: on a request that passes the amount, currency and merchant checks,
validation fails with the missing-payment-method error exactly when the
card token is empty AND card details are absent; a request with only a
non-empty card token passes, and a request carrying both a token and
(valid) card details also passes — there is no exclusivity check. -/
theorem claim_C5 :
    (∀ r : PaymentRequest, 0 < r.Amount → r.Currency.utf8ByteSize = 3 →
      goIsBlank r.MerchantID = false →
      (ValidatePaymentRequest (some r) = some GoError.missingPaymentMethod ↔
        (r.CardToken = "" ∧ r.CardDetails = none))) ∧
    (∀ r : PaymentRequest, 0 < r.Amount → r.Currency.utf8ByteSize = 3 →
      goIsBlank r.MerchantID = false → r.CardToken ≠ "" → r.CardDetails = none →
      ValidatePaymentRequest (some r) = none) ∧
    (∀ (r : PaymentRequest) (cd : CardDetails), 0 < r.Amount →
      r.Currency.utf8ByteSize = 3 → goIsBlank r.MerchantID = false →
      r.CardToken ≠ "" → r.CardDetails = some cd → ValidateCardDetails (some cd) = none →
      ValidatePaymentRequest (some r) = none) := by
  have hcur : ∀ s : String, s.utf8ByteSize = 3 → s ≠ "" := by
    intro s h3 he
    subst he
    exact absurd h3 (by decide)
  refine ⟨fun r hA h3 hM => ?_, fun r hA h3 hM hT hD => ?_, fun r cd hA h3 hM hT hD hV => ?_⟩
  · simp only [ValidatePaymentRequest]
    rw [if_neg (not_le.mpr hA), if_neg (hcur _ h3), if_neg (not_not_intro h3),
      if_neg (by simp [hM])]
    by_cases hmethod : r.CardToken = "" ∧ r.CardDetails = none
    · rw [if_pos hmethod]
      simp [hmethod]
    · rw [if_neg hmethod]
      rw [iff_false_intro hmethod]
      cases hcd : r.CardDetails with
      | none => simp
      | some cd => cases hv : ValidateCardDetails (some cd) <;> simp [hv]
  · simp only [ValidatePaymentRequest]
    rw [if_neg (not_le.mpr hA), if_neg (hcur _ h3), if_neg (not_not_intro h3),
      if_neg (by simp [hM]), if_neg (by simp [hT]), hD]
  · simp only [ValidatePaymentRequest]
    rw [if_neg (not_le.mpr hA), if_neg (hcur _ h3), if_neg (not_not_intro h3),
      if_neg (by simp [hM]), if_neg (by simp [hT]), hD]
    simp [hV]

/-- Witness for C5: a token-only request passes; the same request with the
token removed fails with the missing-payment-method error; a request with
both a token and valid card details passes. -/
theorem claim_C5_witness :
    ValidatePaymentRequest (some { Amount := 100, Currency := "USD",
                                   MerchantID := "merchant_123",
                                   CardToken := "token_123" }) = none ∧
    ValidatePaymentRequest (some { Amount := 100, Currency := "USD",
                                   MerchantID := "merchant_123" }) =
      some GoError.missingPaymentMethod ∧
    ValidatePaymentRequest (some { Amount := 100, Currency := "USD",
                                   MerchantID := "merchant_123",
                                   CardToken := "token_123",
                                   CardDetails :=
                                     some { Number := "4111111111111111",
                                            ExpiryMonth := 12, ExpiryYear := 2025,
                                            CVV := "123",
                                            HolderName := "John Doe" } }) = none :=
  ⟨claim_C5.2.1 _ (by decide) (by decide) (by decide) (by decide) rfl,
   (claim_C5.1 _ (by decide) (by decide) (by decide)).mpr ⟨rfl, rfl⟩,
   claim_C5.2.2 _ _ (by decide) (by decide) (by decide) (by decide) rfl (by decide)⟩

/-- C10: a request whose card-details field points at a record is never
rejected with the missing-payment-method error, whatever the token; and the
otherwise-valid request carrying the all-zero `CardDetails` record (with
empty card token) is instead rejected with the wrapped invalid-card-number
error. -/
theorem claim_C10 :
    (∀ (r : PaymentRequest) (cd : CardDetails), r.CardDetails = some cd →
      ValidatePaymentRequest (some r) ≠ some GoError.missingPaymentMethod) ∧
    ValidatePaymentRequest (some { Amount := 100, Currency := "USD",
                                   MerchantID := "merchant_123", CardToken := "",
                                   CardDetails := some {} }) =
      some (GoError.invalidCardDetails GoError.errInvalidCardNumber) := by
  refine ⟨fun r cd hcd => ?_, by decide⟩
  simp only [ValidatePaymentRequest]
  split_ifs with h1 h2 h3 h4 h5
  · simp
  · simp
  · simp
  · simp
  · exact absurd (h5.2.symm.trans hcd) (by simp)
  · rw [hcd]
    cases hv : ValidateCardDetails (some cd) <;> simp [hv]

/-- Witness for C10: the all-zero card-details record satisfies the
payment-method presence check (the pointer alone suffices). -/
theorem claim_C10_witness :
    ValidatePaymentRequest (some { Amount := 100, Currency := "USD",
                                   MerchantID := "merchant_123", CardToken := "",
                                   CardDetails := some {} }) ≠
      some GoError.missingPaymentMethod :=
  claim_C10.1 _ {} rfl

/-- C1: transaction-request validation runs the same amount / currency /
merchant / payment-method (/card-details) checks as payment-request
validation, and on top of them rejects a non-empty capture mode that is
neither "auto" nor "manual" with the invalid-capture-mode error, while
"auto", "manual" and "" all pass (shown both in general and on the unit
test's concrete requests). -/
theorem claim_C1 :
    (∀ r : TransactionRequest,
      ValidateTransactionRequest (some r) =
        match ValidatePaymentRequest (some r.toPaymentRequest) with
        | some e => some e
        | none =>
          if r.CaptureMode = "" ∨ r.CaptureMode = "auto" ∨ r.CaptureMode = "manual" then
            none
          else
            some GoError.invalidCaptureMode) ∧
    ValidateTransactionRequest (some { Amount := 100, Currency := "USD",
                                       MerchantID := "merchant_123",
                                       CardToken := "token_123",
                                       CaptureMode := "invalid" }) =
      some GoError.invalidCaptureMode ∧
    ValidateTransactionRequest (some { Amount := 100, Currency := "USD",
                                       MerchantID := "merchant_123",
                                       CardToken := "token_123",
                                       CaptureMode := "auto" }) = none ∧
    ValidateTransactionRequest (some { Amount := 100, Currency := "USD",
                                       MerchantID := "merchant_123",
                                       CardToken := "token_123",
                                       CaptureMode := "manual" }) = none ∧
    ValidateTransactionRequest (some { Amount := 100, Currency := "USD",
                                       MerchantID := "merchant_123",
                                       CardToken := "token_123" }) = none := by
  refine ⟨fun r => ?_, by decide, by decide, by decide, by decide⟩
  simp only [ValidateTransactionRequest, ValidatePaymentRequest,
    TransactionRequest.toPaymentRequest]
  split_ifs <;> try rfl
  all_goals try tauto
  all_goals
    cases hcd : r.CardDetails with
    | none => rfl
    | some cd => cases hv : ValidateCardDetails (some cd) <;> simp [hv]

/-- C6: the query encoder drops a field holding the type's zero value
(empty string, zero integer, zero float, nil pointer) without any effect
on the rest of the encoding; a boolean field is always emitted as
"true"/"false", including `false`; a nil input yields the empty mapping
with no error; and for the list-transactions request, Limit=0 emits no
"limit" key while Limit=10 emits limit=10 (shown on the generic encoder
and on the hand-built `ListTransactions` query). -/
theorem claim_C6 :
    (∀ (fs₁ fs₂ : List GoField) (f : GoField), isZeroFieldValue f.value = true →
      encodeFields (fs₁ ++ f :: fs₂) = encodeFields (fs₁ ++ fs₂)) ∧
    (∀ (tag : String) (b : Bool), ¬(tag = "" ∨ tag = "-") →
      encodeFields [⟨tag, FieldValue.bool b⟩] = [(tag, if b then "true" else "false")]) ∧
    encodeQuery none = Except.ok [] ∧
    encodeFields [⟨"limit", FieldValue.int 0⟩] = [] ∧
    encodeFields [⟨"limit", FieldValue.int 10⟩] = [("limit", "10")] ∧
    listTransactionsQuery (some { Limit := 0 }) = [] ∧
    listTransactionsQuery (some { Limit := 10 }) = [("limit", "10")] := by
  refine ⟨fun fs₁ fs₂ f hz => ?_, fun tag b ht => ?_, rfl, by decide, by decide,
    by decide, by decide⟩
  · rw [encodeFields_append, encodeFields_append]
    congr 1
    obtain ⟨tag, v⟩ := f
    cases v <;> simp_all [encodeFields, fieldValueString, isZeroFieldValue]
  · cases b <;> simp [encodeFields, fieldValueString, ht]

/-- Witness for C6: dropping a zero-valued integer field from the token
listing's descriptor list leaves the encoding unchanged, and a false
boolean field is still emitted. -/
theorem claim_C6_witness :
    encodeFields ([⟨"customer_id,omitempty", FieldValue.str "cust_1"⟩] ++
        ⟨"limit,omitempty", FieldValue.int 0⟩ :: []) =
      encodeFields ([⟨"customer_id,omitempty", FieldValue.str "cust_1"⟩] ++ []) ∧
    encodeFields [⟨"cvv_check", FieldValue.bool false⟩] = [("cvv_check", "false")] :=
  ⟨claim_C6.1 _ _ _ (by decide),
   by simpa using claim_C6.2.1 "cvv_check" false (by decide)⟩

/-- C7 evaluated at the failing input: `encodeQuery` takes the key from
`reflect.StructTag.Get("url")`, which returns the whole tag value with its
",omitempty" option, so `ListTokensRequest.CustomerID = "cust_1"` is
emitted under the key "customer_id,omitempty" and no "customer_id" key is
ever produced. -/
theorem claim_C7 :
    encodeQuery (some (ListTokensRequest.toGoFields { CustomerID := "cust_1" })) =
      Except.ok [("customer_id,omitempty", "cust_1")] ∧
    ("customer_id", "cust_1") ∉
      encodeFields (ListTokensRequest.toGoFields { CustomerID := "cust_1" }) := by
  exact ⟨rfl, by decide⟩

theorem goTruncToInt_eq_floor (x : ℚ) (hx : 0 ≤ x) : goTruncToInt x = ⌊x⌋ := by
  rw [goTruncToInt, Int.tdiv_eq_ediv (Rat.num_nonneg.mpr hx)
    (by exact_mod_cast Nat.zero_le x.den), Rat.floor_def]

theorem goTruncToInt_eq_ceil (x : ℚ) (hx : x < 0) : goTruncToInt x = ⌈x⌉ := by
  have h1 : goTruncToInt (-x) = ⌊-x⌋ := goTruncToInt_eq_floor (-x) (by linarith)
  have h2 : goTruncToInt (-x) = -goTruncToInt x := by
    rw [goTruncToInt, goTruncToInt, Rat.neg_num, Rat.neg_den, Int.neg_tdiv]
  have h3 : -goTruncToInt x = -⌈x⌉ := by rw [← h2, h1, Int.floor_neg]
  exact neg_inj.mp h3

/-- C8: `FormatAmount` truncates toward zero to 2 fractional digits: it
multiplies by 100, discards the fractional remainder (floor for
non-negative inputs, ceiling for negative ones — i.e. truncation toward
zero), and divides by 100; in particular 100.996 maps to 100.99 (not
101.00) and 100.0 maps to 100.0. -/
theorem claim_C8 :
    FormatAmount (100996 / 1000 : ℚ) = 10099 / 100 ∧
    FormatAmount (100 : ℚ) = 100 ∧
    (∀ q : ℚ, 0 ≤ q → FormatAmount q = (⌊q * 100⌋ : ℚ) / 100) ∧
    (∀ q : ℚ, q < 0 → FormatAmount q = (⌈q * 100⌉ : ℚ) / 100) := by
  refine ⟨?_, ?_, fun q hq => ?_, fun q hq => ?_⟩
  · rw [FormatAmount, goTruncToInt_eq_floor _ (by norm_num)]
    norm_num
  · rw [FormatAmount, goTruncToInt_eq_floor _ (by norm_num)]
    norm_num
  · rw [FormatAmount, goTruncToInt_eq_floor _ (by positivity)]
  · rw [FormatAmount, goTruncToInt_eq_ceil _ (by nlinarith)]

/-- Witness for C8 at concrete inputs on both sides of zero. -/
theorem claim_C8_witness :
    FormatAmount (257 / 2 : ℚ) = (⌊(257 / 2 : ℚ) * 100⌋ : ℚ) / 100 ∧
    FormatAmount (-257 / 2 : ℚ) = (⌈(-257 / 2 : ℚ) * 100⌉ : ℚ) / 100 :=
  ⟨claim_C8.2.2.1 _ (by norm_num), claim_C8.2.2.2 _ (by norm_num)⟩

/-- C9: `IsSupportedCurrency` returns true exactly when the case-folded
argument equals the case-folded form of one of the fixed 20 codes; in
particular "usd" (case-insensitive hit) is supported while "XYZ" and ""
are not. -/
theorem claim_C9 :
    (∀ s : String,
      IsSupportedCurrency s = true ↔
        s.data.map goSimpleFoldChar ∈
          SupportedCurrencies.map (fun c => c.data.map goSimpleFoldChar)) ∧
    IsSupportedCurrency "usd" = true ∧
    IsSupportedCurrency "XYZ" = false ∧
    IsSupportedCurrency "" = false := by
  refine ⟨fun s => ?_, by decide, by decide, by decide⟩
  simp only [IsSupportedCurrency, List.any_eq_true, goEqualFold, decide_eq_true_eq,
    List.mem_map]
